import Mathlib

/-!
Shallow embedding of the query facade of the mcp-server-eks repository
(src/server-simple.py, src/server-enhanced.py, src/server-claude-bridge.py).

Each HTTP / resource handler is embedded as a pure Lean function of
(a) the process-wide environment configuration, and
(b) the outcome of the underlying Kubernetes client call the handler makes,
modelled as an `Except PyExn` value. Raw Kubernetes records are embedded as
structures carrying exactly the fields the handlers read; optional fields of
the Kubernetes object model (fields the Python client reports as None) are
`Option`s.
-/

/-- JSON values, the shape of every body this server produces via json.dumps. -/
inductive JsonVal where
  | null : JsonVal
  | str : String → JsonVal
  | num : Int → JsonVal
  | arr : List JsonVal → JsonVal
  | obj : List (String × JsonVal) → JsonVal

/-- Python exception outcomes of a kubernetes client call: either an
ApiException (carrying its HTTP status and reason), or any other exception
(carrying its str() message). -/
inductive PyExn where
  | apiException : Nat → String → PyExn
  | other : String → PyExn

/-- Outcome of a kubernetes client call. -/
abbrev ApiResult (α : Type) := Except PyExn α

/-- A single-quote character, used to build Python f-string messages. -/
def singleQuote : String := String.singleton (Char.ofNat 39)

/-- Condensed model of str(e) for a kubernetes ApiException: a string
mentioning the HTTP status and the reason (the library formats it over
several lines; only the fact that it is some string derived from status and
reason matters to the handlers, which embed it verbatim). -/
def apiExceptionStr (status : Nat) (reason : String) : String :=
  "(" ++ toString status ++ ") Reason: " ++ reason

/-- str(e) for a PyExn, as the handlers interpolate it into error bodies. -/
def PyExn.message : PyExn → String
  | .apiException status reason => apiExceptionStr status reason
  | .other msg => msg

/-- Python dict .get(key): first binding wins, None when absent. -/
def pyDictGetStr (d : List (String × String)) (k : String) : Option String :=
  (d.find? (fun p => p.1 == k)).map (fun p => p.2)

/-- A node condition record (node.status.conditions entries): fields
condition.type and condition.status. -/
structure NodeCondition where
  type : String
  status : String

/-- Raw node record as read by the handlers: metadata.name, the
metadata.labels dict, and status.conditions (None when the field is absent
on the wire; the pod handler guards its own conditions with `or []`, the
node handler does not, so absence is observable). -/
structure RawNode where
  name : String
  labels : List (String × String)
  conditions : Option (List NodeCondition)

/-- Python TypeError message raised by iterating None. -/
def noneTypeNotIterableMsg : String :=
  singleQuote ++ "NoneType" ++ singleQuote ++ " object is not iterable"

/-- NodeSummary shape built by handle_nodes for each raw node. -/
structure NodeSummary where
  name : String
  status : String
  instance_type : String
  zone : String

/-- Embeds the per-node dict construction in MCPHandler.handle_nodes
(src/server-simple.py lines 100-109): status is "Ready" iff some condition
has type "Ready" and status "True"; instance type and zone come from
labels.get(..., "unknown"). Iterating node.status.conditions when that field
is None raises TypeError, embedded as the error case. -/
def buildNodeSummary (node : RawNode) : Except String NodeSummary :=
  match node.conditions with
  | none => Except.error noneTypeNotIterableMsg
  | some conds =>
    Except.ok
      { name := node.name,
        status :=
          if conds.any (fun c => c.type == "Ready" && c.status == "True")
          then "Ready" else "NotReady",
        instance_type :=
          (pyDictGetStr node.labels "node.kubernetes.io/instance-type").getD "unknown",
        zone :=
          (pyDictGetStr node.labels "topology.kubernetes.io/zone").getD "unknown" }

/-- The JSON dict appended to node_info for one node. -/
def nodeSummaryJson (s : NodeSummary) : JsonVal :=
  .obj [("name", .str s.name), ("status", .str s.status),
        ("instance_type", .str s.instance_type), ("zone", .str s.zone)]

/-- The node_info list built by the loop in handle_nodes; the first raised
TypeError aborts the loop (and is caught by the handler's except clause). -/
def buildNodeInfos : List RawNode → Except String (List JsonVal)
  | [] => Except.ok []
  | node :: rest => do
    let s ← buildNodeSummary node
    let infos ← buildNodeInfos rest
    Except.ok (nodeSummaryJson s :: infos)

/-- A pod condition record (pod.status.conditions entries). -/
structure PodCondition where
  type : String
  status : String

/-- A container status record: container.restart_count may be None. -/
structure ContainerStatus where
  restart_count : Option Nat

/-- Raw pod record as read by handle_pods: metadata.name, status.phase,
status.conditions (None when absent, guarded by `or []` in the source) and
status.container_statuses (likewise). -/
structure RawPod where
  name : String
  phase : String
  conditions : Option (List PodCondition)
  container_statuses : Option (List ContainerStatus)

/-- sum(1 for condition in (pod.status.conditions or []) if condition.type
== "Ready" and condition.status == "True"). -/
def podReadyCount (pod : RawPod) : Nat :=
  ((pod.conditions.getD []).filter
    (fun c => c.type == "Ready" && c.status == "True")).length

/-- sum(container.restart_count or 0 for container in
(pod.status.container_statuses or [])). -/
def podRestartCount (pod : RawPod) : Nat :=
  ((pod.container_statuses.getD []).map (fun c => c.restart_count.getD 0)).sum

/-- The pod_info dict built for one pod in handle_pods. -/
def podInfoJson (pod : RawPod) : JsonVal :=
  .obj [("name", .str pod.name), ("phase", .str pod.phase),
        ("ready", .num (podReadyCount pod)),
        ("restart_count", .num (podRestartCount pod))]

/-- Raw deployment record as read by handle_deployments: spec.replicas is
emitted as-is (null when None), status.ready_replicas and
status.available_replicas are defaulted with `or 0`. -/
structure RawDeployment where
  name : String
  replicas : Option Int
  ready_replicas : Option Int
  available_replicas : Option Int

/-- The dict built for one deployment in handle_deployments. -/
def deploymentInfoJson (d : RawDeployment) : JsonVal :=
  .obj [("name", .str d.name),
        ("replicas", match d.replicas with | some n => .num n | none => .null),
        ("ready_replicas", .num (d.ready_replicas.getD 0)),
        ("available_replicas", .num (d.available_replicas.getD 0))]

/-- Body of an HTTP response: a json.dumps body from send_json_response, or
the stdlib HTML error page from BaseHTTPRequestHandler.send_error. -/
inductive Body where
  | jsonBody : JsonVal → Body
  | htmlError : String → Body

/-- An HTTP response: status code, headers in emission order, body. -/
structure HttpResponse where
  status : Nat
  headers : List (String × String)
  body : Body

/-- MCPHandler.send_json_response (src/server-simple.py lines 180-186):
emits the given status, a Content-type header, the CORS
Access-Control-Allow-Origin wildcard header, and the JSON body. -/
def send_json_response (data : JsonVal) (status : Nat) : HttpResponse :=
  { status := status,
    headers := [("Content-type", "application/json"),
                ("Access-Control-Allow-Origin", "*")],
    body := Body.jsonBody data }

/-- Model of the stdlib BaseHTTPRequestHandler.send_error used for
unrecognized paths and unexpected handler errors: it emits its own
Connection and Content-Type headers and an HTML body, and sets no CORS
header. -/
def send_error_response (code : Nat) (message : String) : HttpResponse :=
  { status := code,
    headers := [("Connection", "close"),
                ("Content-Type", "text/html;charset=utf-8")],
    body := Body.htmlError message }

/-- Process-wide environment configuration read through os.getenv. -/
structure Env where
  cluster_name : Option String
  aws_region : Option String

/-- MCPHandler.handle_health (src/server-simple.py lines 62-79), as a
function of the outcome of the probe v1.list_namespace(limit=1). -/
def handle_health (probe : ApiResult Unit) : HttpResponse :=
  match probe with
  | .ok _ =>
    send_json_response
      (.obj [("status", .str "healthy"),
             ("kubernetes_api", .str "accessible"),
             ("server", .str "mcp-eks-server")]) 200
  | .error e =>
    send_json_response
      (.obj [("status", .str "unhealthy"),
             ("kubernetes_api", .str "inaccessible"),
             ("error", .str e.message)]) 500

/-- MCPHandler.handle_cluster_info (src/server-simple.py lines 81-93), as a
function of env and the outcome of v1.list_namespace(). -/
def handle_cluster_info (env : Env) (r : ApiResult (List String)) : HttpResponse :=
  match r with
  | .ok nss =>
    send_json_response
      (.obj [("cluster_name", .str (env.cluster_name.getD "mcp-eks-cluster")),
             ("region", .str (env.aws_region.getD "us-east-1")),
             ("namespace_count", .num nss.length),
             ("namespaces", .arr (nss.map JsonVal.str))]) 200
  | .error e => send_json_response (.obj [("error", .str e.message)]) 500

/-- MCPHandler.handle_nodes (src/server-simple.py lines 95-117): on success
the response carries node_count = len(nodes.items) and the node_info list;
any exception raised while building node_info (or by the client call) is
caught and reported as an error body with status 500. -/
def handle_nodes (r : ApiResult (List RawNode)) : HttpResponse :=
  match r with
  | .ok nodes =>
    match buildNodeInfos nodes with
    | .ok infos =>
      send_json_response
        (.obj [("node_count", .num nodes.length), ("nodes", .arr infos)]) 200
    | .error msg => send_json_response (.obj [("error", .str msg)]) 500
  | .error e => send_json_response (.obj [("error", .str e.message)]) 500

/-- f-string "Namespace not found" message of handle_pods and
handle_deployments, quoting the namespace name. -/
def nsNotFoundMsg (ns : String) : String :=
  "Namespace " ++ singleQuote ++ ns ++ singleQuote ++ " not found"

/-- f-string generic API error message of handle_pods / handle_deployments. -/
def apiErrorMsg (reason : String) : String :=
  "API error: " ++ reason

/-- MCPHandler.handle_pods (src/server-simple.py lines 119-149): on success,
a namespace-tagged listing with pod_count = len(pod_list); an ApiException
with HTTP status 404 is classified as the namespace-not-found error body,
any other ApiException as the generic API-error body, any other exception
as its own message; every error body is sent with status 500. -/
def handle_pods (ns : String) (r : ApiResult (List RawPod)) : HttpResponse :=
  match r with
  | .ok pods =>
    let pod_list := pods.map podInfoJson
    send_json_response
      (.obj [("namespace", .str ns),
             ("pod_count", .num pod_list.length),
             ("pods", .arr pod_list)]) 200
  | .error (.apiException 404 _) =>
    send_json_response (.obj [("error", .str (nsNotFoundMsg ns))]) 500
  | .error (.apiException _ reason) =>
    send_json_response (.obj [("error", .str (apiErrorMsg reason))]) 500
  | .error (.other msg) =>
    send_json_response (.obj [("error", .str msg)]) 500

/-- MCPHandler.handle_deployments (src/server-simple.py lines 151-178):
same structure and error classification as handle_pods. -/
def handle_deployments (ns : String) (r : ApiResult (List RawDeployment)) : HttpResponse :=
  match r with
  | .ok deps =>
    let deployment_list := deps.map deploymentInfoJson
    send_json_response
      (.obj [("namespace", .str ns),
             ("deployment_count", .num deployment_list.length),
             ("deployments", .arr deployment_list)]) 200
  | .error (.apiException 404 _) =>
    send_json_response (.obj [("error", .str (nsNotFoundMsg ns))]) 500
  | .error (.apiException _ reason) =>
    send_json_response (.obj [("error", .str (apiErrorMsg reason))]) 500
  | .error (.other msg) =>
    send_json_response (.obj [("error", .str msg)]) 500

/-- The outcomes of the kubernetes client calls a single request can make,
bundled so do_GET can be a function of the cluster state it observes. -/
structure ClusterApi where
  probeNamespaces : ApiResult Unit
  listNamespaces : ApiResult (List String)
  listNodes : ApiResult (List RawNode)
  listPods : String → ApiResult (List RawPod)
  listDeployments : String → ApiResult (List RawDeployment)

/-- A parsed GET request: the URL path and the parse_qs query dict
(flattened to first values, which is all query_params.get(k, [d])[0]
observes). -/
structure Request where
  path : String
  query : List (String × String)

/-- query_params.get(key, [default])[0]. -/
def queryGetD (q : List (String × String)) (k d : String) : String :=
  match q.find? (fun p => p.1 == k) with
  | some p => p.2
  | none => d

/-- MCPHandler.do_GET (src/server-simple.py lines 36-60): path dispatch to
the five handlers; unrecognized paths get the stdlib send_error(404) page. -/
def do_GET (env : Env) (api : ClusterApi) (req : Request) : HttpResponse :=
  if req.path = "/health" then handle_health api.probeNamespaces
  else if req.path = "/cluster-info" then handle_cluster_info env api.listNamespaces
  else if req.path = "/nodes" then handle_nodes api.listNodes
  else if req.path = "/pods" then
    let ns := queryGetD req.query "namespace" "default"
    handle_pods ns (api.listPods ns)
  else if req.path = "/deployments" then
    let ns := queryGetD req.query "namespace" "default"
    handle_deployments ns (api.listDeployments ns)
  else send_error_response 404 "Not Found"

/-- Looks a key up in a JSON-object response body. -/
def bodyLookup (resp : HttpResponse) (k : String) : Option JsonVal :=
  match resp.body with
  | .jsonBody (.obj kvs) => (kvs.find? (fun p => p.1 == k)).map (fun p => p.2)
  | _ => none

/-- A listing response is well-counted when its items key holds an array
whose length the count key reports. -/
def countEqItems (resp : HttpResponse) (countKey itemsKey : String) : Prop :=
  ∃ l : List JsonVal,
    bodyLookup resp itemsKey = some (.arr l) ∧
    bodyLookup resp countKey = some (.num l.length)

/-- True when the response carries the CORS wildcard header. -/
def hasCORS (resp : HttpResponse) : Bool :=
  resp.headers.contains ("Access-Control-Allow-Origin", "*")

/-- The kubernetes calls handle_read_resource in src/server-enhanced.py can
make. -/
structure EnhancedApi where
  listNamespaces : ApiResult (List String)
  listNodes : ApiResult (List RawNode)
  probeNamespaces : ApiResult Unit

/-- handle_read_resource (src/server-enhanced.py lines 67-124), returning
the dict passed to json.dumps (serialization abstracted away). The unknown
URI branch raises ValueError, which the handler's own outer except catches
and turns into an error dict; exceptions from the cluster-info and
node-info branches are caught there too. The health branch has its own
inner try and never propagates. -/
def handle_read_resource (env : Env) (api : EnhancedApi) (uri : String) : JsonVal :=
  if uri = "resource://cluster-info" then
    match api.listNamespaces with
    | .ok nss =>
      .obj [("cluster_name", .str (env.cluster_name.getD "mcp-eks-cluster")),
            ("region", .str (env.aws_region.getD "us-west-2")),
            ("namespace_count", .num nss.length),
            ("server_version", .str "1.28"),
            ("namespaces", .arr (nss.map JsonVal.str))]
    | .error e => .obj [("error", .str e.message)]
  else if uri = "resource://node-info" then
    match api.listNodes with
    | .ok nodes =>
      match buildNodeInfos nodes with
      | .ok infos => .obj [("node_count", .num nodes.length), ("nodes", .arr infos)]
      | .error msg => .obj [("error", .str msg)]
    | .error e => .obj [("error", .str e.message)]
  else if uri = "resource://health" then
    match api.probeNamespaces with
    | .ok _ =>
      .obj [("status", .str "healthy"),
            ("kubernetes_api", .str "accessible"),
            ("timestamp", .str "2024-01-01T00:00:00Z")]
    | .error e =>
      .obj [("status", .str "unhealthy"),
            ("kubernetes_api", .str "inaccessible"),
            ("error", .str e.message),
            ("timestamp", .str "2024-01-01T00:00:00Z")]
  else .obj [("error", .str ("Unknown resource: " ++ uri))]

/-- A JSON object as the bridge manipulates it: a Python dict. -/
abbrev PyDict := List (String × JsonVal)

/-- Python dict .get(key) over JSON values. -/
def pyDictGet (d : PyDict) (k : String) : Option JsonVal :=
  (d.find? (fun p => p.1 == k)).map (fun p => p.2)

/-- Python equality of n.get("instance_type") with the string "t3.medium":
true exactly for that string value (None and any other JSON value compare
unequal). -/
def isT3Medium : Option JsonVal → Bool
  | some (.str s) => s == "t3.medium"
  | _ => false

/-- The node_list computed by the get_node_info tool of
src/server-claude-bridge.py (lines 169-179): when include_karpenter_only is
set, keeps the entries whose instance_type differs from "t3.medium". -/
def get_node_info_nodes (node_list : List PyDict) (include_karpenter_only : Bool) :
    List PyDict :=
  if include_karpenter_only then
    node_list.filter (fun n => !(isT3Medium (pyDictGet n "instance_type")))
  else node_list

/-- The node_info loop yields one summary per raw node when it completes. -/
theorem buildNodeInfos_length (nodes : List RawNode) (infos : List JsonVal)
    (h : buildNodeInfos nodes = Except.ok infos) : infos.length = nodes.length := by
  induction nodes generalizing infos with
  | nil =>
    simp only [buildNodeInfos] at h
    cases h
    rfl
  | cons node rest ih =>
    simp only [buildNodeInfos, bind, Except.bind] at h
    cases hs : buildNodeSummary node with
    | error e => rw [hs] at h; cases h
    | ok s =>
      rw [hs] at h
      cases hr : buildNodeInfos rest with
      | error e => rw [hr] at h; cases h
      | ok tl =>
        rw [hr] at h
        cases h
        simp [ih tl hr]

/-- C1: for every sequence of raw records returned by the cluster client,
each listing the facade produces reports a count field equal to the length
of its item array: node_count/nodes, pod_count/pods,
deployment_count/deployments, and namespace_count/namespaces inside cluster
info. (The node listing is produced exactly when the node_info loop
completes, i.e. buildNodeInfos succeeds.) -/
theorem listing_counts_match (env : Env) (ns ns2 : String)
    (nss : List String) (pods : List RawPod) (deps : List RawDeployment)
    (nodes : List RawNode) (infos : List JsonVal)
    (h : buildNodeInfos nodes = Except.ok infos) :
    countEqItems (handle_nodes (Except.ok nodes)) "node_count" "nodes" ∧
    countEqItems (handle_pods ns (Except.ok pods)) "pod_count" "pods" ∧
    countEqItems (handle_deployments ns2 (Except.ok deps)) "deployment_count" "deployments" ∧
    countEqItems (handle_cluster_info env (Except.ok nss)) "namespace_count" "namespaces" := by
  refine ⟨⟨infos, ?_, ?_⟩, ⟨pods.map podInfoJson, ?_, ?_⟩,
          ⟨deps.map deploymentInfoJson, ?_, ?_⟩, ⟨nss.map JsonVal.str, ?_, ?_⟩⟩ <;>
    simp [handle_nodes, handle_pods, handle_deployments, handle_cluster_info, h,
          bodyLookup, send_json_response, List.find?, buildNodeInfos_length nodes infos h]

/-- Witness for listing_counts_match at a concrete empty cluster. -/
theorem listing_counts_match_witness :
    countEqItems (handle_pods "default" (Except.ok [])) "pod_count" "pods" :=
  (listing_counts_match ⟨none, none⟩ "default" "default" [] [] [] [] [] rfl).2.1

/-- C2: handle_health is total over every probe outcome and always returns a
HealthStatus-shaped JSON response: a status string and a kubernetes_api
string are always present, status is "healthy" exactly when the probe
v1.list_namespace(limit=1) succeeded, and on failure the status is
"unhealthy" with the underlying message as the error detail. -/
theorem health_never_fails (probe : ApiResult Unit) :
    (∃ s, bodyLookup (handle_health probe) "status" = some (JsonVal.str s)) ∧
    (∃ k, bodyLookup (handle_health probe) "kubernetes_api" = some (JsonVal.str k)) ∧
    (bodyLookup (handle_health probe) "status" = some (JsonVal.str "healthy") ↔
      probe = Except.ok ()) ∧
    (∀ e, probe = Except.error e →
      bodyLookup (handle_health probe) "status" = some (JsonVal.str "unhealthy") ∧
      bodyLookup (handle_health probe) "error" = some (JsonVal.str e.message)) := by
  cases probe with
  | ok u => cases u; simp [handle_health, bodyLookup, send_json_response, List.find?]
  | error e => simp [handle_health, bodyLookup, send_json_response, List.find?]

/-- Witness for health_never_fails at a concrete failed probe. -/
theorem health_never_fails_witness :
    bodyLookup (handle_health (Except.error (PyExn.other "timeout"))) "error" =
      some (JsonVal.str "timeout") :=
  ((health_never_fails (Except.error (PyExn.other "timeout"))).2.2.2
    (PyExn.other "timeout") rfl).2

/-- C7: a pod query on an existing namespace with zero pods succeeds: the
response is the 200 listing with pod_count = 0, an empty pods array, the
requested namespace name, and no error key. -/
theorem empty_namespace_pods_ok (ns : String) :
    handle_pods ns (Except.ok []) =
      send_json_response
        (JsonVal.obj [("namespace", JsonVal.str ns),
                      ("pod_count", JsonVal.num 0),
                      ("pods", JsonVal.arr [])]) 200 ∧
    (handle_pods ns (Except.ok [])).status = 200 ∧
    bodyLookup (handle_pods ns (Except.ok [])) "namespace" = some (JsonVal.str ns) ∧
    bodyLookup (handle_pods ns (Except.ok [])) "error" = none := by
  refine ⟨rfl, rfl, ?_, ?_⟩ <;>
    simp [handle_pods, bodyLookup, send_json_response, List.find?]

/-- Witness for empty_namespace_pods_ok at the "default" namespace. -/
theorem empty_namespace_pods_ok_witness :
    bodyLookup (handle_pods "default" (Except.ok [])) "namespace" =
      some (JsonVal.str "default") :=
  (empty_namespace_pods_ok "default").2.2.1

/-- The namespace-not-found message never coincides with the generic
API-error message: they differ at their first character. -/
theorem notFound_ne_generic (ns reason : String) :
    nsNotFoundMsg ns ≠ apiErrorMsg reason := by
  intro h
  have h2 : (nsNotFoundMsg ns).data.head? = (apiErrorMsg reason).data.head? := by rw [h]
  simp only [nsNotFoundMsg, apiErrorMsg, String.data_append, List.cons_append,
    List.head?_cons, Option.some.injEq] at h2
  exact absurd h2 (by decide)

/-- C3: a namespace-scoped query hitting an upstream ApiException with HTTP
status 404 is classified as the not-found error naming the missing
namespace, for pods and deployments alike, and that classification is never
the generic API-error one (their bodies always differ). -/
theorem notfound_classification (ns reason : String) :
    handle_pods ns (Except.error (PyExn.apiException 404 reason)) =
      send_json_response (JsonVal.obj [("error", JsonVal.str (nsNotFoundMsg ns))]) 500 ∧
    handle_deployments ns (Except.error (PyExn.apiException 404 reason)) =
      send_json_response (JsonVal.obj [("error", JsonVal.str (nsNotFoundMsg ns))]) 500 ∧
    bodyLookup (handle_pods ns (Except.error (PyExn.apiException 404 reason))) "error" ≠
      some (JsonVal.str (apiErrorMsg reason)) ∧
    bodyLookup (handle_deployments ns (Except.error (PyExn.apiException 404 reason))) "error" ≠
      some (JsonVal.str (apiErrorMsg reason)) := by
  refine ⟨rfl, rfl, ?_, ?_⟩ <;>
  · simp [handle_pods, handle_deployments, bodyLookup, send_json_response, List.find?]
    exact notFound_ne_generic ns reason

/-- Witness for notfound_classification at a concrete missing namespace. -/
theorem notfound_classification_witness :
    handle_pods "ghost" (Except.error (PyExn.apiException 404 "Not Found")) =
      send_json_response (JsonVal.obj [("error", JsonVal.str (nsNotFoundMsg "ghost"))]) 500 :=
  (notfound_classification "ghost" "Not Found").1

/-- C6: the observed HTTP behavior for a missing namespace is a 500
response (never 404) whose JSON body names the missing namespace; the same
500 status is used for every other facade error of these handlers. -/
theorem notfound_maps_to_500 (ns reason msg : String) (s : Nat) :
    (handle_pods ns (Except.error (PyExn.apiException 404 reason))).status = 500 ∧
    (handle_pods ns (Except.error (PyExn.apiException 404 reason))).status ≠ 404 ∧
    bodyLookup (handle_pods ns (Except.error (PyExn.apiException 404 reason))) "error" =
      some (JsonVal.str (nsNotFoundMsg ns)) ∧
    (handle_deployments ns (Except.error (PyExn.apiException 404 reason))).status = 500 ∧
    bodyLookup (handle_deployments ns (Except.error (PyExn.apiException 404 reason))) "error" =
      some (JsonVal.str (nsNotFoundMsg ns)) ∧
    (handle_pods ns (Except.error (PyExn.apiException s reason))).status = 500 ∧
    (handle_pods ns (Except.error (PyExn.other msg))).status = 500 := by
  refine ⟨rfl, ?_, ?_, rfl, ?_, ?_, rfl⟩
  · change (500 : Nat) ≠ 404
    decide
  · simp [handle_pods, bodyLookup, send_json_response, List.find?]
  · simp [handle_deployments, bodyLookup, send_json_response, List.find?]
  · unfold handle_pods
    split <;> simp_all [send_json_response]

/-- Witness for notfound_maps_to_500 at a concrete missing namespace. -/
theorem notfound_maps_to_500_witness :
    (handle_pods "ghost" (Except.error (PyExn.apiException 404 "Not Found"))).status = 500 :=
  (notfound_maps_to_500 "ghost" "Not Found" "boom" 403).1

/-- C4 counterexample: a raw node whose status.conditions field is absent
makes the NodeSummary construction raise (TypeError from iterating None),
contradicting the claim that it never raises when a status field is absent. -/
theorem nodeSummary_raises_counterexample :
    buildNodeSummary { name := "ip-10-0-0-1", labels := [], conditions := none } =
      Except.error noneTypeNotIterableMsg := rfl

/-- C4 amended: when status.conditions is present, building the NodeSummary
never raises and substitutes the placeholder "unknown" for each missing
label; when status.conditions is absent, the construction raises (the
handler catches it and answers with an error body instead of a listing). -/
theorem nodeSummary_unknown_placeholders (node : RawNode) :
    (∀ conds, node.conditions = some conds →
      ∃ s, buildNodeSummary node = Except.ok s ∧
        (pyDictGetStr node.labels "node.kubernetes.io/instance-type" = none →
          s.instance_type = "unknown") ∧
        (pyDictGetStr node.labels "topology.kubernetes.io/zone" = none →
          s.zone = "unknown")) ∧
    (node.conditions = none →
      buildNodeSummary node = Except.error noneTypeNotIterableMsg) := by
  constructor
  · intro conds hc
    refine ⟨{ name := node.name,
              status := if conds.any (fun c => c.type == "Ready" && c.status == "True")
                        then "Ready" else "NotReady",
              instance_type :=
                (pyDictGetStr node.labels "node.kubernetes.io/instance-type").getD "unknown",
              zone :=
                (pyDictGetStr node.labels "topology.kubernetes.io/zone").getD "unknown" },
            ?_, ?_, ?_⟩
    · simp [buildNodeSummary, hc]
    · intro h
      simp [h]
    · intro h
      simp [h]
  · intro h
    simp [buildNodeSummary, h]

/-- Witness for nodeSummary_unknown_placeholders at a concrete label-less
node with an empty conditions list. -/
theorem nodeSummary_unknown_placeholders_witness :
    ∃ s, buildNodeSummary { name := "n1", labels := [], conditions := some [] } =
        Except.ok s ∧ s.instance_type = "unknown" := by
  obtain ⟨s, hs, hi, _⟩ :=
    (nodeSummary_unknown_placeholders
      { name := "n1", labels := [], conditions := some [] }).1 [] rfl
  exact ⟨s, hs, hi rfl⟩

/-- C5: the Karpenter-managed node filter of the bridge returns a subset of
the unfiltered node list, and every node it keeps has an instance_type
different from the baseline "t3.medium". -/
theorem karpenter_filter_correct (node_list : List PyDict) :
    (get_node_info_nodes node_list true).Sublist (get_node_info_nodes node_list false) ∧
    (∀ n ∈ get_node_info_nodes node_list true, n ∈ get_node_info_nodes node_list false) ∧
    (∀ n ∈ get_node_info_nodes node_list true,
      pyDictGet n "instance_type" ≠ some (JsonVal.str "t3.medium")) := by
  refine ⟨?_, ?_, ?_⟩
  · simp only [get_node_info_nodes, if_true, if_false, Bool.true_eq, reduceIte]
    exact List.filter_sublist _
  · intro n hn
    simp only [get_node_info_nodes, reduceIte] at hn ⊢
    exact List.mem_of_mem_filter hn
  · intro n hn heq
    simp only [get_node_info_nodes, reduceIte] at hn
    have hp := List.of_mem_filter hn
    rw [heq] at hp
    simp [isT3Medium] at hp

/-- Witness for karpenter_filter_correct on a one-node list. -/
theorem karpenter_filter_correct_witness :
    pyDictGet [("instance_type", JsonVal.str "m5.large")] "instance_type" ≠
      some (JsonVal.str "t3.medium") :=
  (karpenter_filter_correct [[("instance_type", JsonVal.str "m5.large")]]).2.2
    [("instance_type", JsonVal.str "m5.large")]
    (by simp [get_node_info_nodes, isT3Medium, pyDictGet, List.find?])

/-- A concrete cluster client whose every call succeeds on an empty cluster. -/
def emptyClusterApi : ClusterApi :=
  { probeNamespaces := Except.ok (),
    listNamespaces := Except.ok [],
    listNodes := Except.ok [],
    listPods := fun _ => Except.ok [],
    listDeployments := fun _ => Except.ok [] }

/-- Every health response carries the CORS header. -/
theorem hasCORS_handle_health (r : ApiResult Unit) : hasCORS (handle_health r) = true := by
  cases r <;> rfl

/-- Every cluster-info response carries the CORS header. -/
theorem hasCORS_handle_cluster_info (env : Env) (r : ApiResult (List String)) :
    hasCORS (handle_cluster_info env r) = true := by
  cases r <;> rfl

/-- Every node-listing response carries the CORS header. -/
theorem hasCORS_handle_nodes (r : ApiResult (List RawNode)) :
    hasCORS (handle_nodes r) = true := by
  cases r with
  | ok nodes => cases h : buildNodeInfos nodes <;> simp [handle_nodes, h, hasCORS, send_json_response]
  | error e => rfl

/-- Every pod-listing response carries the CORS header. -/
theorem hasCORS_handle_pods (ns : String) (r : ApiResult (List RawPod)) :
    hasCORS (handle_pods ns r) = true := by
  cases r with
  | ok pods => rfl
  | error e =>
    cases e with
    | other m => rfl
    | apiException s reason =>
      unfold handle_pods
      split <;> simp_all [hasCORS, send_json_response]

/-- Every deployment-listing response carries the CORS header. -/
theorem hasCORS_handle_deployments (ns : String) (r : ApiResult (List RawDeployment)) :
    hasCORS (handle_deployments ns r) = true := by
  cases r with
  | ok deps => rfl
  | error e =>
    cases e with
    | other m => rfl
    | apiException s reason =>
      unfold handle_deployments
      split <;> simp_all [hasCORS, send_json_response]

/-- C8 counterexample: the not-found response for an unrecognized path is
produced by the stdlib send_error and carries no CORS header, refuting the
claim that every response sent by the server does. -/
theorem cors_missing_counterexample :
    hasCORS (do_GET { cluster_name := none, aws_region := none } emptyClusterApi
      { path := "/bogus", query := [] }) = false := by
  simp [do_GET, hasCORS, send_error_response]

/-- C8 amended: every response produced through send_json_response carries
the CORS wildcard header — in particular every response of the five
recognized routes — while the not-found page the stdlib send_error builds
for an unrecognized path does not. -/
theorem cors_on_json_responses (env : Env) (api : ClusterApi) (req : Request)
    (data : JsonVal) (status : Nat) :
    hasCORS (send_json_response data status) = true ∧
    (req.path = "/health" ∨ req.path = "/cluster-info" ∨ req.path = "/nodes" ∨
        req.path = "/pods" ∨ req.path = "/deployments" →
      hasCORS (do_GET env api req) = true) ∧
    (req.path ≠ "/health" → req.path ≠ "/cluster-info" → req.path ≠ "/nodes" →
        req.path ≠ "/pods" → req.path ≠ "/deployments" →
      hasCORS (do_GET env api req) = false) := by
  refine ⟨rfl, ?_, ?_⟩
  · intro h
    rcases h with h | h | h | h | h <;>
      simp [do_GET, h, hasCORS_handle_health, hasCORS_handle_cluster_info,
        hasCORS_handle_nodes, hasCORS_handle_pods, hasCORS_handle_deployments]
  · intro h1 h2 h3 h4 h5
    simp [do_GET, h1, h2, h3, h4, h5, hasCORS, send_error_response]

/-- Witness for cors_on_json_responses at the health route of an empty
cluster. -/
theorem cors_on_json_responses_witness :
    hasCORS (do_GET { cluster_name := none, aws_region := none } emptyClusterApi
      { path := "/health", query := [] }) = true :=
  (cors_on_json_responses { cluster_name := none, aws_region := none } emptyClusterApi
    { path := "/health", query := [] } JsonVal.null 200).2.1 (Or.inl rfl)

/-- C9: every query is deterministic in its inputs: with the same
process-wide configuration, the same request, and a cluster client
returning the same raw records, the facade produces structurally identical
responses. (The embedding surfaces every ambient input the handlers read —
environment and client call outcomes — as explicit arguments; the handlers
keep no other state.) -/
theorem queries_deterministic (env1 env2 : Env) (api1 api2 : ClusterApi)
    (req1 req2 : Request) (h1 : env1 = env2) (h2 : api1 = api2) (h3 : req1 = req2) :
    do_GET env1 api1 req1 = do_GET env2 api2 req2 ∧
    handle_cluster_info env1 api1.listNamespaces =
      handle_cluster_info env2 api2.listNamespaces ∧
    (∀ ns, handle_pods ns (api1.listPods ns) = handle_pods ns (api2.listPods ns)) := by
  subst h1
  subst h2
  subst h3
  exact ⟨rfl, rfl, fun ns => rfl⟩

/-- Witness for queries_deterministic at a concrete repeated request. -/
theorem queries_deterministic_witness :
    do_GET { cluster_name := none, aws_region := none } emptyClusterApi
        { path := "/pods", query := [] } =
      do_GET { cluster_name := none, aws_region := none } emptyClusterApi
        { path := "/pods", query := [] } :=
  (queries_deterministic { cluster_name := none, aws_region := none }
    { cluster_name := none, aws_region := none } emptyClusterApi emptyClusterApi
    { path := "/pods", query := [] } { path := "/pods", query := [] }
    rfl rfl rfl).1

/-- C10: handle_read_resource of the enhanced variant is total: for every
URI and every adapter outcome it returns a JSON object (the handler's outer
except catches the ValueError raised for unknown URIs), and for every URI
outside the three known resources that object is exactly the error dict
naming the unknown resource. -/
theorem read_resource_total (env : Env) (api : EnhancedApi) (uri : String) :
    (∃ kvs, handle_read_resource env api uri = JsonVal.obj kvs) ∧
    (uri ≠ "resource://cluster-info" → uri ≠ "resource://node-info" →
        uri ≠ "resource://health" →
      handle_read_resource env api uri =
        JsonVal.obj [("error", JsonVal.str ("Unknown resource: " ++ uri))]) := by
  constructor
  · by_cases h1 : uri = "resource://cluster-info"
    · simp only [handle_read_resource, if_pos h1]
      cases api.listNamespaces <;> exact ⟨_, rfl⟩
    · by_cases h2 : uri = "resource://node-info"
      · simp only [handle_read_resource, if_neg h1, if_pos h2]
        cases api.listNodes with
        | ok nodes =>
          cases h : buildNodeInfos nodes with
          | ok infos =>
            exact ⟨[("node_count", JsonVal.num nodes.length), ("nodes", JsonVal.arr infos)],
              by simp [h]⟩
          | error msg => exact ⟨[("error", JsonVal.str msg)], by simp [h]⟩
        | error e => exact ⟨_, rfl⟩
      · by_cases h3 : uri = "resource://health"
        · simp only [handle_read_resource, if_neg h1, if_neg h2, if_pos h3]
          cases api.probeNamespaces <;> exact ⟨_, rfl⟩
        · simp only [handle_read_resource, if_neg h1, if_neg h2, if_neg h3]
          exact ⟨_, rfl⟩
  · intro h1 h2 h3
    simp only [handle_read_resource, if_neg h1, if_neg h2, if_neg h3]

/-- Witness for read_resource_total at a concrete unknown URI. -/
theorem read_resource_total_witness :
    handle_read_resource { cluster_name := none, aws_region := none }
        { listNamespaces := Except.ok [], listNodes := Except.ok [],
          probeNamespaces := Except.ok () } "resource://oops" =
      JsonVal.obj [("error", JsonVal.str ("Unknown resource: " ++ "resource://oops"))] :=
  (read_resource_total { cluster_name := none, aws_region := none }
    { listNamespaces := Except.ok [], listNodes := Except.ok [],
      probeNamespaces := Except.ok () } "resource://oops").2
    (by decide) (by decide) (by decide)
